import Mathlib

/-!
Verification of the internet connection monitor (`internet_monitor.py`).

Shallow embedding conventions:
* Timestamps (`datetime.now()`) are modelled as rationals (`ℚ`); a difference of
  two timestamps (`(now - start).total_seconds()`) is plain subtraction.
* The outcome of an external effect (a subprocess run, an HTTP request, a
  `float(...)` / `json.loads(...)` parse) is passed in explicitly as data; a
  parse that would raise is represented by `none`.
* Appends to a CSV series are modelled as appends to a Lean list.
* Python float arithmetic on monitoring quantities is modelled as exact
  rational arithmetic over `ℚ`.
-/

namespace InternetMonitor

/-! ## Connection state machine (`__init__` lines 70-73, `_handle_connection_state` lines 212-244) -/

/-- The mutable connection state: `self.is_connected`, `self.disconnect_start`,
`self.last_successful_ping`. -/
structure ConnState where
  is_connected : Bool
  disconnect_start : Option ℚ
  last_successful_ping : ℚ
  deriving Repr, DecidableEq

/-- One row appended to `events.csv` (lines 223-230): the disconnect start
timestamp and the duration in seconds.  The free-text `details` column is a
formatting of the same two timestamps and is not modelled separately. -/
structure DisconnectEvent where
  start : ℚ
  duration_seconds : ℚ
  deriving Repr, DecidableEq

/-- `__init__` (lines 71-73): the monitor starts connected, with no disconnect
start; `last_successful_ping` is the construction time `t`. -/
def initState (t : ℚ) : ConnState :=
  { is_connected := true, disconnect_start := none, last_successful_ping := t }

/-- `_handle_connection_state(connected)` with `now = datetime.now()`
(lines 212-244), returning the updated state and the list of event rows
appended (empty or a single disconnect event). -/
def handle_connection_state (s : ConnState) (connected : Bool) (now : ℚ) :
    ConnState × List DisconnectEvent :=
  if connected && !s.is_connected then
    -- connection restored; `if self.disconnect_start:` is `none`-test (a
    -- datetime is always truthy)
    match s.disconnect_start with
    | some start =>
        let duration := now - start
        ({ is_connected := true, disconnect_start := none,
           last_successful_ping := now }, [⟨start, duration⟩])
    | none =>
        ({ is_connected := true, disconnect_start := none,
           last_successful_ping := now }, [])
  else if !connected && s.is_connected then
    -- connection lost
    ({ is_connected := false, disconnect_start := some now,
       last_successful_ping := s.last_successful_ping }, [])
  else if connected then
    -- still connected
    ({ s with last_successful_ping := now }, [])
  else
    -- still disconnected: no-op
    (s, [])

/-- Feed a sequence of (verdict, timestamp) pairs through the state machine,
collecting all emitted disconnect events in order. -/
def runVerdicts (s : ConnState) : List (Bool × ℚ) → ConnState × List DisconnectEvent
  | [] => (s, [])
  | (v, t) :: rest =>
      let step := handle_connection_state s v t
      let next := runVerdicts step.1 rest
      (next.1, step.2 ++ next.2)

/-- The state-machine invariant from the spec: `disconnect_start` is set iff
`is_connected` is false. -/
def StateInv (s : ConnState) : Prop :=
  s.disconnect_start ≠ none ↔ s.is_connected = false

/-! ## Connectivity aggregation (`test_connectivity` lines 155-210) -/

/-- The aggregation step of `test_connectivity` (line 190):
`connected = successful_tests > (total_tests * 0.5)`, where `probes` lists the
success bit of each probe of the batch (ping probes then HTTP probes) and the
comparison is the exact real comparison the Python floats perform. -/
def connectivity_verdict (probes : List Bool) : Bool :=
  decide ((probes.count true : ℚ) > (probes.length : ℚ) * 0.5)

/-! ## HTTP probe (`http_test` lines 135-153) -/

/-- Outcome of `requests.get(url, timeout=5, allow_redirects=False)`: either a
completed response with a status code and an elapsed time in milliseconds, or
any raised exception (network error, timeout, ...). -/
inductive HttpOutcome where
  | requestError
  | response (status : ℕ) (elapsed_ms : ℚ)
  deriving Repr, DecidableEq

/-- The status codes line 143 accepts. -/
def http_success_codes : List ℕ := [200, 301, 302, 303, 307, 308]

/-- `requests.get` is called with `allow_redirects=False` (line 140). -/
def http_allow_redirects : Bool := false

/-- `requests.get` is called with `timeout=5` (line 140). -/
def http_timeout_seconds : ℕ := 5

/-- `http_test(url)` (lines 135-153) as a function of the request outcome:
returns `(connected, response_time_ms)`; every exception path returns
`(false, none)`. -/
def http_test : HttpOutcome → Bool × Option ℚ
  | .requestError => (false, none)
  | .response status elapsed_ms =>
      if status ∈ http_success_codes then (true, some elapsed_ms)
      else (false, none)

/-! ## Speed test (`run_speedtest` lines 246-317) -/

/-- Outcome of one `subprocess.run(cmd, ..., timeout=120)` call: the binary is
absent (`FileNotFoundError`), the run exceeds the bound
(`subprocess.TimeoutExpired`), or the process exits with a return code.  When
the exit code is 0 the code parses stdout with `json.loads`; `parsed = none`
models an unparseable stdout (the parse raises), `parsed = some j` a parsed
JSON document of shape `α`.  The stdout of a non-zero exit is never parsed. -/
inductive ProcOutcome (α : Type) where
  | notFound
  | timeout
  | exited (returncode : ℤ) (parsed : Option α)
  deriving Repr, DecidableEq

/-- The fields of the primary (Ookla `speedtest --format=json`) JSON document
that lines 258-261 read, each `none` when absent (every read uses
`.get` with a default, so absence never raises). -/
structure OoklaJson where
  download_bandwidth : Option ℚ
  upload_bandwidth : Option ℚ
  ping_latency : Option ℚ
  server_name : Option String
  server_location : Option String
  deriving Repr, DecidableEq

/-- The fields of the fallback (`speedtest-cli --json`) JSON document that
lines 269-272 / 282-285 read; these use raw indexing (`data['download']`), so a
`none` field raises `KeyError`. -/
structure CliJson where
  download : Option ℚ
  upload : Option ℚ
  ping : Option ℚ
  server_sponsor : Option String
  server_name : Option String
  deriving Repr, DecidableEq

/-- The external-world outcomes one `run_speedtest` invocation can observe: at
most one run of the primary tool and at most one run of the fallback tool. -/
structure SpeedEnv where
  primary : ProcOutcome OoklaJson
  fallback : ProcOutcome CliJson
  deriving Repr, DecidableEq

/-- One row appended to `speedtest.csv`: a success row with the normalized
values (lines 292-301), or a failure row whose status column is
`'failed: ' + str(e)` with empty value columns (lines 309-315). -/
inductive SpeedRecord where
  | success (download_mbps upload_mbps ping_ms : ℚ) (server : String)
  | failed (reason : String)
  deriving Repr, DecidableEq

/-- Whether a record is a success row. -/
def SpeedRecord.isSuccess : SpeedRecord → Bool
  | .success _ _ _ _ => true
  | .failed _ => false

/-- Status column for the `raise Exception("Both speedtest CLIs failed")` path
(line 274), caught at line 305 and written as `failed: str(e)`. -/
def bothFailedMsg : String := "failed: Both speedtest CLIs failed"

/-- Status column for the `raise Exception("speedtest CLI not found. ...")`
path (line 287). -/
def notFoundInstallMsg : String :=
  "failed: speedtest CLI not found. Install with: curl -s https://packagecloud.io/install/repositories/ookla/speedtest-cli/script.deb.sh | sudo bash && sudo apt-get install speedtest"

/-- Status column when `json.loads` raises; the exact `str(e)` of the Python
`json.JSONDecodeError` is abstracted to the exception name. -/
def jsonDecodeMsg : String := "failed: JSONDecodeError"

/-- Status column when indexing a missing key of the fallback JSON raises; the
exact `str(e)` of the Python `KeyError` is abstracted to the exception name. -/
def keyErrorMsg : String := "failed: KeyError"

/-- Status column when a `subprocess.run` raises `FileNotFoundError` outside
the inner `try` (fallback binary absent); `str(e)` abstracted. -/
def fileNotFoundMsg : String := "failed: FileNotFoundError"

/-- Status column when a `subprocess.run` raises `subprocess.TimeoutExpired`
(never caught locally); `str(e)` abstracted. -/
def timeoutMsg : String := "failed: TimeoutExpired"

/-- The fallback branch shared by lines 263-274 and 276-287: run
`speedtest-cli --json`; on exit 0 parse stdout and index the required keys; on
non-zero exit raise the branch-specific exception (`rcFailMsg`); a raised
`FileNotFoundError` / `TimeoutExpired` / parse or key error propagates to the
outer handler, which writes a failure row. -/
def runFallback (fb : ProcOutcome CliJson) (rcFailMsg : String) : SpeedRecord :=
  match fb with
  | .notFound => .failed fileNotFoundMsg
  | .timeout => .failed timeoutMsg
  | .exited rc parsed =>
      if rc = 0 then
        match parsed with
        | none => .failed jsonDecodeMsg
        | some j =>
            match j.download, j.upload, j.ping, j.server_sponsor,
                j.server_name with
            | some d, some u, some p, some sp, some nm =>
                .success (d / 1000000) (u / 1000000) p (sp ++ " - " ++ nm)
            | _, _, _, _, _ => .failed keyErrorMsg
      else
        .failed rcFailMsg

/-- The record `run_speedtest` produces for a given environment: the primary
tool first (lines 252-261); on non-zero exit the fallback with the
"Both speedtest CLIs failed" exit message (lines 263-274); on
`FileNotFoundError` the fallback with the install-instructions exit message
(lines 276-287); any other raised exception reaches the outer handler
(lines 305-315) and becomes a failure row. -/
def run_speedtest_record (env : SpeedEnv) : SpeedRecord :=
  match env.primary with
  | .timeout => .failed timeoutMsg
  | .notFound => runFallback env.fallback notFoundInstallMsg
  | .exited rc parsed =>
      if rc = 0 then
        match parsed with
        | none => .failed jsonDecodeMsg
        | some j =>
            .success (j.download_bandwidth.getD 0 / 1000000)
              (j.upload_bandwidth.getD 0 / 1000000)
              (j.ping_latency.getD 0)
              (j.server_name.getD "Unknown" ++ " - " ++
                j.server_location.getD "")
      else
        runFallback env.fallback bothFailedMsg

/-- `run_speedtest` (lines 246-317): appends its one record to the speedtest
series and returns `True` on the success path, `False` from the exception
handler. -/
def run_speedtest (env : SpeedEnv) (log : List SpeedRecord) :
    List SpeedRecord × Bool :=
  let r := run_speedtest_record env
  (log ++ [r], r.isSuccess)

/-- The primary tool failed in the sense of C5/C6: absent from the system or
exited non-zero. -/
def primaryBad (env : SpeedEnv) : Prop :=
  env.primary = .notFound ∨
    ∃ rc parsed, env.primary = .exited rc parsed ∧ rc ≠ 0

/-- The fallback tool failed or its output cannot be parsed: absent, timed
out, exited non-zero, unparseable stdout, or a required JSON key missing. -/
def fallbackBad (fb : ProcOutcome CliJson) : Prop :=
  fb = .notFound ∨ fb = .timeout ∨
    (∃ rc parsed, fb = .exited rc parsed ∧ rc ≠ 0) ∨
    fb = .exited 0 none ∨
    (∃ j, fb = .exited 0 (some j) ∧
      (j.download = none ∨ j.upload = none ∨ j.ping = none ∨
        j.server_sponsor = none ∨ j.server_name = none))

/-! ## Report generation (`generate_report` lines 319-386) -/

/-- One row of `connectivity.csv` as read back by the report; only the
`status` column is consulted (line 336). -/
structure ConnRow where
  status : String
  deriving Repr, DecidableEq

/-- One row of `events.csv` as read back: the raw `event_type` column and the
result of `float(row['duration_seconds'])`; `none` models a value on which
`float` raises `ValueError` (line 353). -/
structure EventRow where
  event_type : String
  duration_seconds : Option ℚ
  deriving Repr, DecidableEq

/-- One row of `speedtest.csv` as read back: the raw `status` column and the
results of `float` on the two bandwidth columns (lines 370-371). -/
structure SpeedRow where
  status : String
  download_mbps : Option ℚ
  upload_mbps : Option ℚ
  deriving Repr, DecidableEq

/-- The connectivity summary section (lines 335-342). -/
structure ConnSummary where
  total_tests : ℕ
  failed_tests : ℕ
  success_rate : ℚ
  deriving Repr, DecidableEq

/-- The disconnection summary section (lines 350-359). -/
structure DisconnectSummary where
  count : ℕ
  total_downtime : ℚ
  avg_duration : ℚ
  deriving Repr, DecidableEq

/-- The speed-test summary section (lines 367-379). -/
structure SpeedSummary where
  total : ℕ
  successful : ℕ
  avg_download : ℚ
  avg_upload : ℚ
  min_download : ℚ
  max_download : ℚ
  deriving Repr, DecidableEq

/-- The report artifact: each summary section is `none` when the code does not
write it (missing series file, or no qualifying rows). -/
structure Report where
  connectivity : Option ConnSummary
  disconnects : Option DisconnectSummary
  speedtest : Option SpeedSummary
  deriving Repr, DecidableEq

/-- Python's `min(l)` on a nonempty list (the `headD 0` default is never
reached at call sites). -/
def listMin (l : List ℚ) : ℚ := l.foldl min (l.headD 0)

/-- Python's `max(l)` on a nonempty list. -/
def listMax (l : List ℚ) : ℚ := l.foldl max (l.headD 0)

/-- A list comprehension `[float(x) for x in l]` whose element parse can
raise: `none` as soon as one element fails. -/
def parseAll {α β : Type} (f : α → Option β) : List α → Option (List β)
  | [] => some []
  | a :: t =>
      match f a, parseAll f t with
      | some b, some bs => some (b :: bs)
      | _, _ => none

/-- The connectivity section computation (lines 335-337): no parse can raise
here, so it is total. -/
def connSummary (rows : List ConnRow) : ConnSummary :=
  let total := rows.length
  let failed := (rows.filter (fun r => r.status == "disconnected")).length
  let rate : ℚ :=
    if 0 < total then ((total : ℚ) - (failed : ℚ)) / (total : ℚ) * 100 else 0
  ⟨total, failed, rate⟩

/-- The disconnection section computation (lines 350-359): outer `none` means
a raised `ValueError` escaping to the handler at line 384; `some none` means
the section is simply not written (no disconnect rows). -/
def eventsSection (rows : List EventRow) : Option (Option DisconnectSummary) :=
  let disconnects := rows.filter (fun e => e.event_type == "disconnect")
  if disconnects.isEmpty then some none
  else
    match parseAll EventRow.duration_seconds disconnects with
    | none => none
    | some durs =>
        some (some ⟨disconnects.length, durs.sum,
          durs.sum / (disconnects.length : ℚ)⟩)

/-- The speed-test section computation (lines 367-379), same conventions as
`eventsSection`. -/
def speedSection (rows : List SpeedRow) : Option (Option SpeedSummary) :=
  let succ := rows.filter (fun s => s.status == "success")
  if succ.isEmpty then some none
  else
    match parseAll SpeedRow.download_mbps succ,
        parseAll SpeedRow.upload_mbps succ with
    | some downs, some ups =>
        some (some ⟨rows.length, succ.length, downs.sum / (succ.length : ℚ),
          ups.sum / (succ.length : ℚ), listMin downs, listMax downs⟩)
    | _, _ => none

/-- The `events_log.exists()` guard (line 345): a missing file skips the
section entirely. -/
def eventsPart (events? : Option (List EventRow)) :
    Option (Option DisconnectSummary) :=
  match events? with
  | none => some none
  | some rows => eventsSection rows

/-- The `speedtest_log.exists()` guard (line 362). -/
def speedPart (speed? : Option (List SpeedRow)) :
    Option (Option SpeedSummary) :=
  match speed? with
  | none => some none
  | some rows => speedSection rows

/-- `generate_report` (lines 319-386) as a function of the three series:
`none` for a series models a missing file (the `exists()` guard skips its
section), and the overall `none` result models the catch-all handler at
lines 384-386 returning `None` with no report produced. -/
def generate_report (conn? : Option (List ConnRow))
    (events? : Option (List EventRow)) (speed? : Option (List SpeedRow)) :
    Option Report :=
  let c := conn?.map connSummary
  match eventsPart events? with
  | none => none
  | some d =>
      match speedPart speed? with
      | none => none
      | some s => some ⟨c, d, s⟩

/-- An events series is well formed when every disconnect row's
`duration_seconds` parses. -/
def eventsRowsWF (rows : List EventRow) : Prop :=
  ∀ e ∈ rows, e.event_type = "disconnect" → e.duration_seconds.isSome

/-- A speed-test series is well formed when every success row's bandwidth
columns parse. -/
def speedRowsWF (rows : List SpeedRow) : Prop :=
  ∀ s ∈ rows, s.status = "success" →
    s.download_mbps.isSome ∧ s.upload_mbps.isSome

/-- The disconnection section on a well-formed series, written without the
failure case (the parse is replaced by `filterMap`, which agrees with it when
every disconnect row parses). -/
def eventsSummaryWF (rows : List EventRow) : Option DisconnectSummary :=
  let disconnects := rows.filter (fun e => e.event_type == "disconnect")
  if disconnects.isEmpty then none
  else
    let durs := disconnects.filterMap EventRow.duration_seconds
    some ⟨disconnects.length, durs.sum, durs.sum / (disconnects.length : ℚ)⟩

/-- The speed-test section on a well-formed series, same convention as
`eventsSummaryWF`. -/
def speedSummaryWF (rows : List SpeedRow) : Option SpeedSummary :=
  let succ := rows.filter (fun s => s.status == "success")
  if succ.isEmpty then none
  else
    let downs := succ.filterMap SpeedRow.download_mbps
    let ups := succ.filterMap SpeedRow.upload_mbps
    some ⟨rows.length, succ.length, downs.sum / (succ.length : ℚ),
      ups.sum / (succ.length : ℚ), listMin downs, listMax downs⟩

end InternetMonitor

namespace InternetMonitor

/-! ## Theorems: state machine -/

/-- C1: starting CONNECTED, the verdict sequence [true, false, false, true] at
timestamps t0 < t1 < t2 < t3 emits exactly one DisconnectEvent, only at the
final true verdict, with start = t1 and duration = t3 - t1; the intermediate
false verdict at t2 is a no-op on the disconnected state. -/
theorem state_machine_single_disconnect_event
    (tinit t0 t1 t2 t3 : ℚ) (h01 : t0 < t1) (h12 : t1 < t2) (h23 : t2 < t3) :
    (runVerdicts (initState tinit)
        [(true, t0), (false, t1), (false, t2), (true, t3)]).2
      = [⟨t1, t3 - t1⟩] ∧
    (runVerdicts (initState tinit) [(true, t0), (false, t1), (false, t2)]).2
      = [] ∧
    handle_connection_state
        { is_connected := false, disconnect_start := some t1,
          last_successful_ping := t0 } false t2
      = ({ is_connected := false, disconnect_start := some t1,
           last_successful_ping := t0 }, []) := by
  refine ⟨?_, ?_, ?_⟩ <;> simp [runVerdicts, handle_connection_state, initState]

/-- Witness for C1 at tinit = 0, (t0, t1, t2, t3) = (0, 1, 2, 3). -/
theorem state_machine_single_disconnect_event_witness :
    (runVerdicts (initState 0)
        [(true, 0), (false, 1), (false, 2), (true, 3)]).2
      = [⟨1, 3 - 1⟩] :=
  (state_machine_single_disconnect_event 0 0 1 2 3 (by norm_num) (by norm_num)
    (by norm_num)).1

/-- C4: the initial state is CONNECTED with no disconnect_start, and every
transition of `_handle_connection_state` preserves the invariant that
`disconnect_start` is set iff `is_connected` is false. -/
theorem state_inv_init_and_preserved :
    (∀ t : ℚ, (initState t).is_connected = true ∧
      (initState t).disconnect_start = none ∧ StateInv (initState t)) ∧
    (∀ (s : ConnState) (connected : Bool) (now : ℚ), StateInv s →
      StateInv (handle_connection_state s connected now).1) := by
  constructor
  · intro t
    refine ⟨rfl, rfl, ?_⟩
    simp [StateInv, initState]
  · rintro ⟨c, d, l⟩ connected now hs
    cases connected <;> cases c <;> cases d <;>
      simp_all [StateInv, handle_connection_state]

/-- Witness for C4: the invariant holds after one false verdict from the
initial state. -/
theorem state_inv_init_and_preserved_witness :
    StateInv (handle_connection_state (initState 0) false 5).1 :=
  state_inv_init_and_preserved.2 (initState 0) false 5
    (state_inv_init_and_preserved.1 0).2.2

/-! ## Theorems: connectivity aggregation -/

/-- C2: for every probe batch with at least one probe, the verdict is connected
iff successful > total * 0.5, equivalently iff successes form a strict
majority; boundary cases: 2 of 4 successes is disconnected, 3 of 4 connected. -/
theorem connectivity_verdict_majority (probes : List Bool)
    (h : 1 ≤ probes.length) :
    (connectivity_verdict probes = true ↔
      (probes.count true : ℚ) > (probes.length : ℚ) * 0.5) ∧
    (connectivity_verdict probes = true ↔
      2 * probes.count true > probes.length) ∧
    connectivity_verdict [true, true, false, false] = false ∧
    connectivity_verdict [true, true, true, false] = true := by
  refine ⟨decide_eq_true_iff, ?_,
    by rw [connectivity_verdict, decide_eq_false_iff_not]; norm_num,
    by rw [connectivity_verdict, decide_eq_true_eq]; norm_num⟩
  rw [connectivity_verdict, decide_eq_true_eq]
  constructor
  · intro hgt
    have : (2 * probes.count true : ℚ) > probes.length := by
      norm_num at hgt ⊢
      linarith
    exact_mod_cast this
  · intro hgt
    have : ((probes.length : ℚ)) < 2 * probes.count true := by exact_mod_cast hgt
    norm_num
    linarith

/-- Witness for C2 on the batch [true]. -/
theorem connectivity_verdict_majority_witness :
    connectivity_verdict [true] = true ↔ 2 * List.count true [true] > 1 :=
  ((connectivity_verdict_majority [true] (by norm_num)).2).1

/-! ## Theorems: HTTP probe -/

/-- C9: the HTTP probe succeeds (with a response time) iff the GET completed,
redirects not followed, with a status in {200, 301, 302, 303, 307, 308}; every
other outcome yields (false, none), and the probe is a total function. -/
theorem http_test_characterization (o : HttpOutcome) :
    ((http_test o).1 = true ↔
      ∃ status elapsed_ms, o = .response status elapsed_ms ∧
        status ∈ http_success_codes) ∧
    ((http_test o).1 = true → ∃ t, (http_test o).2 = some t) ∧
    ((http_test o).1 = false → http_test o = (false, none)) ∧
    http_allow_redirects = false := by
  refine ⟨?_, ?_, ?_, rfl⟩
  · cases o with
    | requestError => simp [http_test]
    | response status elapsed_ms =>
        by_cases h : status ∈ http_success_codes <;>
          simp [http_test, h]
  · cases o with
    | requestError => simp [http_test]
    | response status elapsed_ms =>
        by_cases h : status ∈ http_success_codes <;>
          simp [http_test, h]
  · cases o with
    | requestError => simp [http_test]
    | response status elapsed_ms =>
        by_cases h : status ∈ http_success_codes <;>
          simp [http_test, h]

/-- Witness for C9 at a completed 200 response. -/
theorem http_test_characterization_witness :
    ∃ t, (http_test (.response 200 12)).2 = some t :=
  (http_test_characterization (.response 200 12)).2.1 (by decide)

/-! ## Theorems: speed test -/

/-- When the fallback branch runs and the fallback fails or its output cannot
be parsed, the produced record is a failure row with a nonempty reason. -/
theorem runFallback_bad {fb : ProcOutcome CliJson} (msg : String)
    (hmsg : msg ≠ "") (h : fallbackBad fb) :
    ∃ reason, runFallback fb msg = .failed reason ∧ reason ≠ "" := by
  rcases h with h | h | ⟨rc, parsed, h, hrc⟩ | h | ⟨j, h, hnone⟩ <;> subst h
  · exact ⟨fileNotFoundMsg, rfl, by decide⟩
  · exact ⟨timeoutMsg, rfl, by decide⟩
  · exact ⟨msg, by simp [runFallback, hrc], hmsg⟩
  · exact ⟨jsonDecodeMsg, by simp [runFallback], by decide⟩
  · refine ⟨keyErrorMsg, ?_, by decide⟩
    obtain ⟨jd, ju, jp, js, jn⟩ := j
    rcases jd with _ | d <;> rcases ju with _ | u <;> rcases jp with _ | p <;>
      rcases js with _ | sp <;> rcases jn with _ | nm <;>
      simp_all [runFallback]

/-- C5: every invocation of `run_speedtest` appends exactly one record to the
speed-test series (it never raises to the caller), and whenever the primary
tool is missing or exits non-zero and the fallback also fails or its output
cannot be parsed, that record is a failure row with a nonempty human-readable
reason. -/
theorem run_speedtest_one_record_and_failure_row :
    (∀ (env : SpeedEnv) (log : List SpeedRecord),
      ∃ r, run_speedtest env log = (log ++ [r], r.isSuccess)) ∧
    (∀ (env : SpeedEnv) (log : List SpeedRecord),
      primaryBad env → fallbackBad env.fallback →
      ∃ reason, run_speedtest env log
        = (log ++ [.failed reason], false) ∧ reason ≠ "") := by
  constructor
  · intro env log
    exact ⟨run_speedtest_record env, rfl⟩
  · intro env log hp hf
    have hrec : ∃ reason,
        run_speedtest_record env = .failed reason ∧ reason ≠ "" := by
      rcases hp with hp | ⟨rc, parsed, hp, hrc⟩
      · rw [run_speedtest_record, hp]
        exact runFallback_bad notFoundInstallMsg (by decide) hf
      · rw [run_speedtest_record, hp]
        simp only [if_neg hrc]
        exact runFallback_bad bothFailedMsg (by decide) hf
    obtain ⟨reason, hr, hne⟩ := hrec
    exact ⟨reason, by simp [run_speedtest, hr, SpeedRecord.isSuccess], hne⟩

/-- Witness for C5: both tools absent yields one failure row. -/
theorem run_speedtest_one_record_and_failure_row_witness :
    ∃ reason,
      run_speedtest ⟨.notFound, .notFound⟩ []
        = ([] ++ [.failed reason], false) ∧ reason ≠ "" :=
  run_speedtest_one_record_and_failure_row.2 ⟨.notFound, .notFound⟩ []
    (Or.inl rfl) (Or.inl rfl)

/-- C6: primary tool missing or exiting non-zero followed by a fallback that
exits 0 with parseable output yields a success record built from the fallback
values, with return value True (no failure surfaced). -/
theorem run_speedtest_fallback_success (env : SpeedEnv)
    (log : List SpeedRecord) (d u p : ℚ) (sp nm : String)
    (hp : primaryBad env)
    (hf : env.fallback = .exited 0 (some ⟨some d, some u, some p, some sp, some nm⟩)) :
    run_speedtest env log
      = (log ++ [.success (d / 1000000) (u / 1000000) p (sp ++ " - " ++ nm)],
         true) := by
  rcases hp with hp | ⟨rc, parsed, hp, hrc⟩
  · simp [run_speedtest, run_speedtest_record, runFallback, hp, hf,
      SpeedRecord.isSuccess]
  · simp [run_speedtest, run_speedtest_record, runFallback, hp, hf, hrc,
      SpeedRecord.isSuccess]

/-- Witness for C6 at concrete fallback values. -/
theorem run_speedtest_fallback_success_witness :
    run_speedtest
        ⟨.notFound, .exited 0 (some ⟨some 1, some 2, some 3, some "A", some "B"⟩)⟩ []
      = ([] ++ [.success (1 / 1000000) (2 / 1000000) 3 ("A" ++ " - " ++ "B")],
         true) :=
  run_speedtest_fallback_success _ [] 1 2 3 "A" "B" (Or.inl rfl) rfl

/-- C8: bandwidth normalization divides raw bits-per-second by exactly
1,000,000 in both tool schemas; 500,000,000 bits/sec normalizes to
500.0 Mbps. -/
theorem speed_normalization (raw : ℚ) (log : List SpeedRecord) :
    run_speedtest
        ⟨.exited 0 (some ⟨some raw, none, none, none, none⟩), .notFound⟩ log
      = (log ++ [.success (raw / 1000000) 0 0 "Unknown - "], true) ∧
    run_speedtest
        ⟨.notFound,
         .exited 0 (some ⟨some raw, some 0, some 0, some "S", some "N"⟩)⟩ log
      = (log ++ [.success (raw / 1000000) 0 0 "S - N"], true) ∧
    run_speedtest
        ⟨.exited 0 (some ⟨some 500000000, none, none, none, none⟩),
         .notFound⟩ log
      = (log ++ [.success 500 0 0 "Unknown - "], true) := by
  refine ⟨?_, ?_, ?_⟩ <;>
    simp [run_speedtest, run_speedtest_record, runFallback,
      SpeedRecord.isSuccess] <;>
    norm_num

/-- C10: when the primary tool exits 0 but its JSON lacks the download,
upload, ping and server fields, the record is still a success row with
defaults 0.0 Mbps, 0 ms, and the server name 'Unknown'; the fallback outcome
is irrelevant (the fallback is never attempted). -/
theorem primary_missing_fields_defaults (fb : ProcOutcome CliJson)
    (log : List SpeedRecord) :
    run_speedtest ⟨.exited 0 (some ⟨none, none, none, none, none⟩), fb⟩ log
      = (log ++ [.success 0 0 0 "Unknown - "], true) := by
  simp [run_speedtest, run_speedtest_record, SpeedRecord.isSuccess]

/-! ## Theorems: report generation -/

/-- When every element parses, the comprehension returns all parsed values. -/
theorem parseAll_eq_filterMap {α β : Type} (f : α → Option β) (l : List α)
    (h : ∀ a ∈ l, (f a).isSome) : parseAll f l = some (l.filterMap f) := by
  induction l with
  | nil => rfl
  | cons a t ih =>
      obtain ⟨b, hb⟩ :=
        Option.isSome_iff_exists.mp (h a (List.mem_cons_self a t))
      have ih' := ih (fun x hx => h x (List.mem_cons_of_mem a hx))
      simp [parseAll, hb, ih', List.filterMap_cons]

/-- On a well-formed events series the section computation does not fail. -/
theorem eventsSection_wf (rows : List EventRow) (h : eventsRowsWF rows) :
    eventsSection rows = some (eventsSummaryWF rows) := by
  rw [eventsSection, eventsSummaryWF]
  by_cases he : (rows.filter (fun e => e.event_type == "disconnect")).isEmpty
  · simp [he]
  · have hall : ∀ e ∈ rows.filter (fun e => e.event_type == "disconnect"),
        (EventRow.duration_seconds e).isSome := by
      intro e he'
      have hm := List.mem_filter.mp he'
      exact h e hm.1 (by simpa using hm.2)
    simp [he, parseAll_eq_filterMap _ _ hall]

/-- On a well-formed speed-test series the section computation does not
fail. -/
theorem speedSection_wf (rows : List SpeedRow) (h : speedRowsWF rows) :
    speedSection rows = some (speedSummaryWF rows) := by
  rw [speedSection, speedSummaryWF]
  by_cases hs : (rows.filter (fun s => s.status == "success")).isEmpty
  · simp [hs]
  · have hd : ∀ s ∈ rows.filter (fun s => s.status == "success"),
        (SpeedRow.download_mbps s).isSome := by
      intro s hs'
      have hm := List.mem_filter.mp hs'
      exact (h s hm.1 (by simpa using hm.2)).1
    have hu : ∀ s ∈ rows.filter (fun s => s.status == "success"),
        (SpeedRow.upload_mbps s).isSome := by
      intro s hs'
      have hm := List.mem_filter.mp hs'
      exact (h s hm.1 (by simpa using hm.2)).2
    simp [hs, parseAll_eq_filterMap _ _ hd, parseAll_eq_filterMap _ _ hu]

/-- C3 counterexample: with an intact connectivity series, an events series
whose single disconnect row has an unparseable `duration_seconds`, and an
intact (empty) speed-test series, `generate_report` fails as a whole and no
report is produced, instead of degrading only the disconnection section. -/
theorem generate_report_malformed_aborts_whole_report :
    generate_report (some [⟨"connected"⟩]) (some [⟨"disconnect", none⟩])
        (some []) = none := rfl

/-- C3 amended: report generation never raises to its caller, and a missing
series file degrades only its own summary section, the other sections being
computed from their own series as usual; but a malformed (unparseable) present
series makes the whole report generation fail with no report produced, rather
than degrading only the affected section.  This theorem is the positive part:
on series whose present files are parseable, the report is always produced,
each section computed independently, a missing file yielding `none` for
exactly its section. -/
theorem generate_report_wf (conn? : Option (List ConnRow))
    (events? : Option (List EventRow)) (speed? : Option (List SpeedRow))
    (he : ∀ rows, events? = some rows → eventsRowsWF rows)
    (hs : ∀ rows, speed? = some rows → speedRowsWF rows) :
    generate_report conn? events? speed?
      = some ⟨conn?.map connSummary, events?.bind eventsSummaryWF,
          speed?.bind speedSummaryWF⟩ := by
  have he' : eventsPart events? = some (events?.bind eventsSummaryWF) := by
    cases events? with
    | none => rfl
    | some rows => simpa [eventsPart] using eventsSection_wf rows (he rows rfl)
  have hs' : speedPart speed? = some (speed?.bind speedSummaryWF) := by
    cases speed? with
    | none => rfl
    | some rows => simpa [speedPart] using speedSection_wf rows (hs rows rfl)
  simp only [generate_report, he', hs']

/-- Witness for the amended C3: one parseable disconnect row, missing
speed-test series. -/
theorem generate_report_wf_witness :
    generate_report (some [⟨"connected"⟩]) (some [⟨"disconnect", some 30⟩])
        (none : Option (List SpeedRow))
      = some ⟨(some [ConnRow.mk "connected"]).map connSummary,
          (some [EventRow.mk "disconnect" (some 30)]).bind eventsSummaryWF,
          (none : Option (List SpeedRow)).bind speedSummaryWF⟩ :=
  generate_report_wf _ _ _
    (fun rows h => by
      cases h
      intro e hm hd
      rw [List.mem_singleton] at hm
      subst hm
      rfl)
    (fun rows h => nomatch h)

/-- C7: the report's success rate is `(total - failed) / total * 100` when
`total > 0` and `0` when `total = 0`; in particular it is 100 whenever no row
failed and 70 for 10 rows of which 3 are disconnected. -/
theorem success_rate_formula :
    (∀ rows : List ConnRow,
      (0 < (connSummary rows).total_tests →
        (connSummary rows).success_rate
          = (((connSummary rows).total_tests : ℚ)
              - ((connSummary rows).failed_tests : ℚ))
              / ((connSummary rows).total_tests : ℚ) * 100) ∧
      ((connSummary rows).total_tests = 0 →
        (connSummary rows).success_rate = 0)) ∧
    (∀ rows : List ConnRow, (connSummary rows).failed_tests = 0 →
      0 < (connSummary rows).total_tests →
      (connSummary rows).success_rate = 100) ∧
    (connSummary (List.replicate 7 ⟨"connected"⟩
        ++ List.replicate 3 ⟨"disconnected"⟩)).success_rate = 70 := by
  refine ⟨?_, ?_, ?_⟩
  · intro rows
    constructor
    · intro h
      have h' : 0 < rows.length := h
      simp only [connSummary]
      rw [if_pos h']
    · intro h
      have h' : rows.length = 0 := h
      simp [connSummary, h']
  · intro rows h0 hpos
    have h0' : (rows.filter (fun r => r.status == "disconnected")).length = 0 :=
      h0
    have hp' : 0 < rows.length := hpos
    have hne : (rows.length : ℚ) ≠ 0 := by exact_mod_cast hp'.ne'
    simp only [connSummary, h0', Nat.cast_zero, sub_zero]
    rw [if_pos hp']
    field_simp
  · simp only [connSummary, List.replicate, List.filter, List.length]
    norm_num

/-- Witness for C7 on a single connected row. -/
theorem success_rate_formula_witness :
    (connSummary [⟨"connected"⟩]).success_rate
      = (((connSummary [⟨"connected"⟩]).total_tests : ℚ)
          - ((connSummary [⟨"connected"⟩]).failed_tests : ℚ))
          / ((connSummary [⟨"connected"⟩]).total_tests : ℚ) * 100 :=
  (success_rate_formula.1 [⟨"connected"⟩]).1 (by decide)

end InternetMonitor
